import Mathlib

/-!
Verification of the fetch-with-fallback-and-cache pipeline of `app/posten.py`
(docker-posten).

Shallow embedding conventions:
* Network I/O is abstracted as an oracle supplied in an `Env` value: the
  upstream reply to the authenticated delivery-days request, and the reply to
  the referer-page GET used by the token scraper.
* Python's `json.loads` / `requests.Response.json()` is abstracted by its
  result: a body is carried together with `Option Json`, `none` standing for
  a `ValueError` on parse.
* Machine integers do not occur; HTTP statuses and clock values are `Nat`.
* An uncaught Python exception (only possible when the scraped `apiKey` is
  not a string, so that `len(token)` raises `TypeError`) is modelled by a
  `none` result component, with the mutated globals kept in the state
  component.
-/

/-- JSON values as produced by Python's `json` module (numbers simplified to
`Int`; the delivery-days payloads under test only use strings, arrays and
objects). -/
inductive Json where
  | null : Json
  | bool (b : Bool) : Json
  | num (n : Int) : Json
  | str (s : String) : Json
  | arr (xs : List Json) : Json
  | obj (fields : List (String × Json)) : Json

/-- `j[k]` / `k in j` on a parsed JSON object: first binding of key `k`
(Python dicts have unique keys). `none` when `j` is not an object or lacks
the key. -/
def Json.lookup : Json → String → Option Json
  | .obj fields, k => (fields.find? fun f => decide (f.1 = k)).map (·.2)
  | _, _ => none

/-- `isinstance(data, dict)`. -/
def Json.isObj : Json → Bool
  | .obj _ => true
  | _ => false

/- --------------------------
   Token generator (`_gen_token`)
   -------------------------- -/

/-- The standard base64 alphabet. -/
def B64_ALPHABET : String :=
  "ABCDEFGHIJKLMNOPQRSTUVWXYZabcdefghijklmnopqrstuvwxyz0123456789+/"

/-- Character for a 6-bit group. -/
def b64char (n : Nat) : Char := B64_ALPHABET.toList.getD n 'A'

/-- Index of a base64 alphabet character (used by decoding). -/
def b64index (c : Char) : Nat := B64_ALPHABET.toList.indexOf c

/-- `base64.b64encode` on a byte list, producing the padded character
stream. -/
def b64encodeAux : List Nat → List Char
  | [] => []
  | [a] => [b64char (a / 4), b64char (a % 4 * 16), '=', '=']
  | [a, b] => [b64char (a / 4), b64char (a % 4 * 16 + b / 16), b64char (b % 16 * 4), '=']
  | a :: b :: c :: rest =>
      b64char (a / 4) :: b64char (a % 4 * 16 + b / 16) ::
      b64char (b % 16 * 4 + c / 64) :: b64char (c % 64) :: b64encodeAux rest

/-- `base64.b64encode(bytes).decode()`. -/
def b64encode (bs : List Nat) : String := String.mk (b64encodeAux bs)

/-- Sextet groups back to bytes (`base64.b64decode` core). -/
def b64decodeAux : List Nat → List Nat
  | a :: b :: c :: d :: rest =>
      (a * 4 + b / 16) :: (b % 16 * 16 + c / 4) :: (c % 4 * 64 + d) :: b64decodeAux rest
  | [a, b, c] => [a * 4 + b / 16, b % 16 * 16 + c / 4]
  | [a, b] => [a * 4 + b / 16]
  | _ => []

/-- `base64.b64decode` on a base64 string (padding ignored). -/
def b64decode (s : String) : List Nat :=
  b64decodeAux ((s.toList.filter (fun c => !(c == '='))).map b64index)

/-- `TOKEN_SEED_B64 = "pils"`. -/
def TOKEN_SEED_B64 : String := "pils"

/-- `str(int(time.time())).encode("utf-8")`: the ASCII bytes of the decimal
digits of the timestamp. -/
def utf8digits (t : Nat) : List Nat := (toString t).toList.map Char.toNat

/-- `_gen_token`:
`base64.b64encode(base64.b64decode(TOKEN_SEED_B64) + str(int(time.time())).encode("utf-8")).decode().replace("=", "")`.
The wall clock `int(time.time())` is the parameter `t`; `.replace("=", "")`
removes every occurrence of `=`. -/
def gen_token (t : Nat) : String :=
  String.mk ((b64encode (b64decode TOKEN_SEED_B64 ++ utf8digits t)).toList.filter
    (fun c => !(c == '=')))

/- --------------------------
   Health recorder (`LAST_UPSTREAM_STATUS` / `_record_health`)
   -------------------------- -/

/-- The `LAST_UPSTREAM_STATUS` global. `when` is a clock value standing for
`dt.datetime.now().isoformat(timespec="seconds")`. -/
structure Health where
  status : Option Nat
  interpreted_status : Option Nat
  error : Option String
  when : Option Nat
  note : Option String
  body_preview : Option String
deriving DecidableEq

/-- The initial `LAST_UPSTREAM_STATUS` (all fields `None`). -/
def Health.init : Health :=
  { status := none, interpreted_status := none, error := none,
    when := none, note := none, body_preview := none }

/-- `_record_health(raw_status, note, body_preview, interpreted_status, error)`:
overwrites every field of the global; the preview is truncated to 200
characters (`(body_preview or "")[:200] if body_preview is not None else None`).
The previous value `_h` is fully overwritten. -/
def record_health (_h : Health) (now : Nat) (raw_status : Option Nat) (note : String)
    (body_preview : Option String) (interpreted : Option Nat) (error : Option String) :
    Health :=
  { status := raw_status, interpreted_status := interpreted, error := error,
    when := some now, note := some note,
    body_preview := body_preview.map (fun s => s.take 200) }

/- --------------------------
   Upstream client (`_fetch_dates`)
   -------------------------- -/

/-- Reply of one authenticated delivery-days GET, network and JSON parsing
abstracted: `json` is the result of `r.json()` (`none` when it raises
`ValueError`); `text` is `r.text` (modelled as always a string). -/
inductive NetResp where
  | transportError (msg : String)
  | reply (status : Nat) (text : String) (json : Option Json)

/-- The `body` entry of a `_fetch_dates` error dict: `None`, raw text, or
the parsed JSON value. -/
inductive ErrBody where
  | null : ErrBody
  | text (s : String) : ErrBody
  | json (j : Json) : ErrBody

/-- The error dict built by `_fetch_dates`
(`{"where": ..., "status": ..., "body": ..., "error": ...}`). -/
structure FetchErr where
  where_ : String
  status : Option Nat
  body : ErrBody
  error : String

/-- The `(ok, payload, code)` triple returned by `_fetch_dates`. -/
inductive FetchRes where
  | ok (data : Json) : FetchRes
  | err (e : FetchErr) (code : Nat) : FetchRes

/-- Body of `_fetch_dates` once the token is known to be a string.
Mirrors the source's validation chain: transport failure, non-200 status,
invalid JSON, non-dict / missing `delivery_dates`, non-list, empty list,
happy path. Returns the result triple (the 200 code of the happy path is
implicit in `FetchRes.ok`) together with the updated health global. -/
def fetch_dates_str (resp : NetResp) (tokenStr : String) (now : Nat) (h : Health) :
    FetchRes × Health :=
  let note := if tokenStr.length < 64 then "generated token" else "scraped token"
  match resp with
  | .transportError e =>
      let errDict : FetchErr :=
        { where_ := "fetch_dates", status := none, body := .null, error := e }
      (FetchRes.err errDict 502,
       record_health h now none note none (some 502) (some ("transport: " ++ e)))
  | .reply status body_text json? =>
      let h1 := record_health h now (some status) note (some body_text) none none
      if status ≠ 200 then
        let interpreted := if 400 ≤ status ∧ status < 600 then status else 502
        let errDict : FetchErr :=
          { where_ := "fetch_dates", status := some status, body := .text body_text,
            error := "upstream non-200" }
        (FetchRes.err errDict interpreted,
         record_health h1 now (some status) note (some body_text) (some interpreted)
           (some "upstream non-200"))
      else
        match json? with
        | none =>
            let errDict : FetchErr :=
              { where_ := "fetch_dates", status := some 200,
                body := .text (body_text.take 500), error := "invalid JSON" }
            (FetchRes.err errDict 502,
             record_health h1 now (some status) note (some body_text) (some 502)
               (some "invalid JSON"))
        | some data =>
            match data, data.lookup "delivery_dates" with
            | .obj _, some dates =>
                match dates with
                | .arr xs =>
                    if xs.isEmpty then
                      let errDict : FetchErr :=
                        { where_ := "fetch_dates", status := some 200, body := .json data,
                          error := "empty 'delivery_dates'" }
                      (FetchRes.err errDict 502,
                       record_health h1 now (some status) note (some body_text) (some 502)
                         (some "empty 'delivery_dates'"))
                    else
                      (FetchRes.ok data,
                       record_health h1 now (some status) note (some body_text) (some 200) none)
                | _ =>
                    let errDict : FetchErr :=
                      { where_ := "fetch_dates", status := some 200, body := .json data,
                        error := "'delivery_dates' not a list" }
                    (FetchRes.err errDict 502,
                     record_health h1 now (some status) note (some body_text) (some 502)
                       (some "'delivery_dates' not a list"))
            | _, _ =>
                let errDict : FetchErr :=
                  { where_ := "fetch_dates", status := some 200, body := .json data,
                    error := "missing 'delivery_dates'" }
                (FetchRes.err errDict 502,
                 record_health h1 now (some status) note (some body_text) (some 502)
                   (some "missing 'delivery_dates'"))

/-- `_fetch_dates(s, token, post_code)`. The token reaches this function as
whatever JSON value the scraper extracted; `len(token)` raises `TypeError`
on a non-string token (before any request is issued and before any health
update), modelled by `none`. -/
def fetch_dates (resp : NetResp) (token : Json) (now : Nat) (h : Health) :
    Option (FetchRes × Health) :=
  match token with
  | .str tokenStr => some (fetch_dates_str resp tokenStr now h)
  | _ => none

/- --------------------------
   Token scraper (`_scrape_token`)
   -------------------------- -/

/-- A `<script>` element of the parsed referer page. `react4xpRef` is its
`data-react4xp-ref` attribute (`none` when absent); each text node of
`script.contents` is abstracted by its `json.loads` result (`none` for a
decode error). -/
structure Script where
  react4xpRef : Option String
  contents : List (Option Json)

/-- Outcome of `s.get(POSTEN_REFERER)` + `raise_for_status()`: either a
`RequestException` (transport failure or non-2xx status) or the page's
script elements in document order. -/
inductive ScrapeResp where
  | fetchError (msg : String)
  | page (scripts : List Script)

/-- The `{"where": "scrape_token", "error": ...}` dict. -/
structure ScrapeErr where
  where_ : String
  error : String
deriving DecidableEq

/-- Result of `_scrape_token`: the extracted `apiKey` JSON value, or an
error dict. -/
inductive ScrapeOut where
  | ok (token : Json) : ScrapeOut
  | err (e : ScrapeErr) : ScrapeOut

/-- The attribute value `_scrape_token` looks for:
`soup.find("script", {"data-react4xp-ref": "parts_mailbox-delivery__main_1_leftRegion_11"})`. -/
def SCRAPE_ATTR : String := "parts_mailbox-delivery__main_1_leftRegion_11"

/-- `_scrape_token(s)`. The second `try` block catches every exception as
`"parse failed: ..."`; the exact exception text is abstracted by a fixed
message per failure shape (missing text node / JSON decode error / missing
key). -/
def scrape_token (resp : ScrapeResp) : ScrapeOut :=
  match resp with
  | .fetchError e => .err { where_ := "scrape_token", error := e }
  | .page scripts =>
      match scripts.find? (fun sc => decide (sc.react4xpRef = some SCRAPE_ATTR)) with
      | none => .err { where_ := "scrape_token", error := "delivery script not found" }
      | some script =>
          match script.contents.head? with
          | none => .err { where_ := "scrape_token", error := "parse failed: list index out of range" }
          | some none => .err { where_ := "scrape_token", error := "parse failed: json decode error" }
          | some (some delivery_json) =>
              match delivery_json.lookup "props" with
              | none => .err { where_ := "scrape_token", error := "parse failed: KeyError" }
              | some props =>
                  match props.lookup "apiKey" with
                  | none => .err { where_ := "scrape_token", error := "parse failed: KeyError" }
                  | some api_token => .ok api_token

/- --------------------------
   Daily success-only cache (`_DAILY_CACHE`)
   -------------------------- -/

/-- One stored success: the `delivery_dates` JSON value and the provenance
note of the `(True, {"delivery_dates": ..., "note": ...})` tuple. -/
structure CacheVal where
  delivery_dates : Json
  note : String

/-- Cache key `(today, postCode)`. -/
abbrev CacheKey := String × String

/-- `cachetools.LRUCache(maxsize=5096)`, entries kept most-recently-used
first. -/
structure LRU where
  entries : List (CacheKey × CacheVal)

/-- `maxsize=5096`. -/
def LRU.maxsize : Nat := 5096

/-- `key in cache` / `cache[key]` value lookup (`__contains__` does not
reorder; the reordering of `__getitem__` is `LRU.touch`). -/
def LRU.get? (c : LRU) (k : CacheKey) : Option CacheVal :=
  (c.entries.find? fun e => decide (e.1 = k)).map (·.2)

/-- Recency update of `cache[key]` on a hit: the entry moves to
most-recently-used position. -/
def LRU.touch (c : LRU) (k : CacheKey) : LRU :=
  match c.entries.find? fun e => decide (e.1 = k) with
  | none => c
  | some (_, v) => ⟨(k, v) :: c.entries.filter fun e => !decide (e.1 = k)⟩

/-- `cache[key] = v`: insert or replace as most-recently-used, evicting the
least-recently-used entry when the capacity bound is hit. -/
def LRU.put (c : LRU) (k : CacheKey) (v : CacheVal) : LRU :=
  ⟨(k, v) :: (c.entries.filter fun e => !decide (e.1 = k)).take (LRU.maxsize - 1)⟩

/-- `cache.clear()`. -/
def LRU.clear (_c : LRU) : LRU := ⟨[]⟩

/- --------------------------
   Fetch orchestrator (`Posten`)
   -------------------------- -/

/-- The process globals threaded through one `Posten` call:
`_DAILY_CACHE`, `_CURRENT_DAY`, `LAST_UPSTREAM_STATUS`. -/
structure St where
  cache : LRU
  currentDay : String
  health : Health

/-- The environment of one `Posten` call: the process-local calendar day,
the wall clock consumed by `_gen_token`, the health-timestamp clock, and
the network oracle (reply of the delivery-days endpoint per token and
postal code; reply of the referer page). -/
structure Env where
  today : String
  time : Nat
  now : Nat
  fetch : Json → String → NetResp
  scrape : ScrapeResp

/-- `str.zfill`: left-pad with `'0'` to the requested width. -/
def zfill (s : String) (width : Nat) : String :=
  if width ≤ s.length then s else String.mk (List.replicate (width - s.length) '0') ++ s

/-- The orchestrator's error value: `{"source": ..., **tok}` or
`{"source": ..., **payload2}`. -/
inductive PostenErr where
  | scrape (source : String) (e : ScrapeErr) : PostenErr
  | fetch (source : String) (e : FetchErr) : PostenErr

/-- `err.get("error")` on the orchestrator's error dict. -/
def PostenErr.message : PostenErr → String
  | .scrape _ e => e.error
  | .fetch _ e => e.error

/-- Result of `Posten`: the success 2-tuple
`(True, {"delivery_dates": ..., "note": ...})` or the failure 3-tuple
`(False, err, code)`. -/
inductive PostenRes where
  | ok (delivery_dates : Json) (note : String) : PostenRes
  | err (e : PostenErr) (code : Nat) : PostenRes

/-- The cache after the hard rollover at midnight: cleared when the
process-local day differs from `_CURRENT_DAY`. -/
def rolledCache (env : Env) (st : St) : LRU :=
  if env.today ≠ st.currentDay then st.cache.clear else st.cache

/-- `_CURRENT_DAY` after the rollover check. -/
def rolledDay (env : Env) (st : St) : String :=
  if env.today ≠ st.currentDay then env.today else st.currentDay

/-- The cache-miss tail of `Posten`: generated-token attempt, scraped-token
fallback, success-only cache store. `none` results model the uncaught
`TypeError` of a non-string scraped token (an impossible `none` is also
kept for the generated-token call and for the missing `delivery_dates` key
of a validated success payload, both provably unreachable). -/
def postenMiss (env : Env) (postCode : String) (key : CacheKey)
    (cache1 : LRU) (day1 : String) (h0 : Health) : Option PostenRes × St :=
  let genTok := Json.str (gen_token env.time)
  match fetch_dates (env.fetch genTok postCode) genTok env.now h0 with
  | none => (none, ⟨cache1, day1, h0⟩)
  | some (.ok payload, h1) =>
      let h2 := { h1 with note := some "generated ok" }
      match payload.lookup "delivery_dates" with
      | some dd =>
          (some (.ok dd "generated ok"),
           ⟨cache1.put key ⟨dd, "generated ok"⟩, day1, h2⟩)
      | none => (none, ⟨cache1, day1, h2⟩)
  | some (.err _payload1 _code1, h1) =>
      match scrape_token env.scrape with
      | .err tokErr =>
          let h2 := { h1 with note := some "generated failed, scraped failed" }
          (some (.err (.scrape "token_scrape" tokErr) 502), ⟨cache1, day1, h2⟩)
      | .ok tok =>
          match fetch_dates (env.fetch tok postCode) tok env.now h1 with
          | none => (none, ⟨cache1, day1, h1⟩)
          | some (.ok payload2, h2) =>
              let h3 := { h2 with note := some "generated failed, scraped ok" }
              match payload2.lookup "delivery_dates" with
              | some dd =>
                  (some (.ok dd "generated failed, scraped ok"),
                   ⟨cache1.put key ⟨dd, "generated failed, scraped ok"⟩, day1, h3⟩)
              | none => (none, ⟨cache1, day1, h3⟩)
          | some (.err payload2e code2, h2) =>
              let h3 := { h2 with note := some "generated failed, scraped failed" }
              (some (.err (.fetch "fetch_with_scraped_token" payload2e)
                 (if code2 = 0 then 502 else code2)),
               ⟨cache1, day1, h3⟩)

/-- `Posten(postCode)`: normalization, midnight rollover, cache hit with
`" (cached)"`-annotated copy and synthetic 200 health update, else the
miss tail. (Stored entries always carry a note, so the
`cached[1].get("note", "pulled from cache")` default is never taken.) -/
def Posten (env : Env) (postCode0 : String) (st : St) : Option PostenRes × St :=
  let postCode := zfill postCode0 4
  let cache1 := rolledCache env st
  let day1 := rolledDay env st
  let key : CacheKey := (env.today, postCode)
  match cache1.get? key with
  | some cached =>
      let note_cached := cached.note ++ " (cached)"
      (some (.ok cached.delivery_dates note_cached),
       ⟨cache1.touch key, day1,
        record_health st.health env.now (some 200) note_cached none (some 200) none⟩)
  | none => postenMiss env postCode key cache1 day1 st.health

/- --------------------------
   Response shaping (`_compose_payload_from_error`)
   -------------------------- -/

/-- The JSON error payload built by `_compose_payload_from_error`. -/
structure ErrorPayload where
  delivery_dates : List Json
  status : Option Nat
  interpreted_status : Option Nat
  error : Option String
  note : Option String
  last_checked : Option Nat
  upstream_body_preview : Option String

/-- `_compose_payload_from_error(err)`: empty dates plus metadata mirrored
from `LAST_UPSTREAM_STATUS` (the `.get("interpreted_status", 502)` default
is dead: the key is always present, possibly holding `None`). -/
def compose_payload_from_error (err : PostenErr) (h : Health) : ErrorPayload :=
  { delivery_dates := []
  , status := h.status
  , interpreted_status := h.interpreted_status
  , error := some err.message
  , note := h.note
  , last_checked := h.when
  , upstream_body_preview := h.body_preview }

/-- Every note a cache entry can carry: the two store sites of `Posten` use
exactly these two literals. -/
def goodNotes (c : LRU) : Prop :=
  ∀ e ∈ c.entries, e.2.note = "generated ok" ∨ e.2.note = "generated failed, scraped ok"

/-- The five malformed-body conditions of a 200 reply, as the spec lists
them: unparseable JSON, non-object, missing `delivery_dates`, non-list
`delivery_dates`, empty list. -/
def malformedBody (json? : Option Json) : Bool :=
  match json? with
  | none => true
  | some j =>
      !j.isObj ||
      match j.lookup "delivery_dates" with
      | none => true
      | some (.arr xs) => xs.isEmpty
      | some _ => true

/-- The spec's wording of the final step of 4.1 ("strip padding
characters"): remove the trailing run of `'='` padding. -/
def stripTrailingPadding (s : String) : String :=
  String.mk ((s.toList.reverse.dropWhile (fun c => c == '=')).reverse)

/- --------------------------
   Concrete fixtures for the witnesses
   -------------------------- -/

/-- A well-formed upstream `delivery_dates` value. -/
def sampleDates : Json := Json.arr [Json.str "2026-10-13"]

/-- A well-formed upstream success payload. -/
def samplePayload : Json := Json.obj [("delivery_dates", sampleDates)]

/-- A scraped api key (64 characters, as the real scraped tokens are). -/
def sampleApiKey : String :=
  "0123456789012345678901234567890123456789012345678901234567890123"

/-- Environment whose delivery-days endpoint always succeeds. -/
def envOkW : Env :=
  { today := "2026-10-12", time := 0, now := 7,
    fetch := fun _ _ => .reply 200 "body" (some samplePayload),
    scrape := .fetchError "boom" }

/-- Environment whose delivery-days endpoint answers 404 and whose referer
page is unreachable. -/
def env404W : Env :=
  { today := "2026-10-12", time := 0, now := 7,
    fetch := fun _ _ => .reply 404 "nf" none,
    scrape := .fetchError "boom" }

/-- Environment where the generated token is rejected with 404, the scrape
succeeds, and the scraped token is rejected with 500. -/
def envScrW : Env :=
  { today := "2026-10-12", time := 0, now := 7,
    fetch := fun tok _ =>
      match tok with
      | .str s => if s.length < 64 then .reply 404 "nf" none else .reply 500 "err" none
      | _ => .transportError "bad token",
    scrape := .page [⟨some SCRAPE_ATTR,
      [some (.obj [("props", .obj [("apiKey", .str sampleApiKey)])])]⟩] }

/-- Empty-cache state on 2026-10-12. -/
def stEmptyW : St := { cache := ⟨[]⟩, currentDay := "2026-10-12", health := Health.init }

/-- State whose cache already holds today's entry for 1234. -/
def stHitW : St :=
  { cache := ⟨[(("2026-10-12", "1234"), ⟨sampleDates, "generated ok"⟩)]⟩,
    currentDay := "2026-10-12", health := Health.init }

/-- State carrying yesterday's cache and marker. -/
def stOldW : St :=
  { cache := ⟨[(("2026-10-11", "1234"), ⟨sampleDates, "generated ok"⟩)]⟩,
    currentDay := "2026-10-11", health := Health.init }

/-- `s.endswith(" (cached)")`, on the character lists (the form in which
the annotation claim is checked). -/
def endsWithCached (s : String) : Bool :=
  " (cached)".toList.isSuffixOf s.toList

/-- A page carrying a renumbered data attribute (suffix `_12`) with a
perfectly valid embedded api key. -/
def pageRenumbered : ScrapeResp :=
  .page [⟨some "parts_mailbox-delivery__main_1_leftRegion_12",
    [some (Json.obj [("props", Json.obj [("apiKey", Json.str "tok123")])])]⟩]

/- --------------------------
   Basic lemmas
   -------------------------- -/

theorem rolledDay_eq (env : Env) (st : St) : rolledDay env st = env.today := by
  unfold rolledDay
  split
  · rfl
  · next h => exact (not_ne_iff.mp h).symm

theorem LRU.get?_touch_self (c : LRU) (k : CacheKey) :
    (c.touch k).get? k = c.get? k := by
  unfold LRU.touch LRU.get?
  cases hf : c.entries.find? fun e => decide (e.1 = k) with
  | none => simp only [hf]
  | some e =>
      have hp : (fun (e : CacheKey × CacheVal) => decide (e.1 = k)) (k, e.2) = true := by simp
      simp [hf, List.find?_cons_of_pos _ hp]

theorem LRU.get?_put_self (c : LRU) (k : CacheKey) (v : CacheVal) :
    (c.put k v).get? k = some v := by
  unfold LRU.put LRU.get?
  have hp : (fun (e : CacheKey × CacheVal) => decide (e.1 = k)) (k, v) = true := by simp
  simp [List.find?_cons_of_pos _ hp]

theorem zfill_of_length_four (s : String) (h : s.length = 4) : zfill s 4 = s := by
  unfold zfill
  simp [h]

/-- A validated success payload of `_fetch_dates` is a JSON object whose
`delivery_dates` entry is a non-empty list. -/
theorem fetch_dates_str_ok_shape (resp : NetResp) (ts : String) (now : Nat)
    (h : Health) (d : Json) (h' : Health)
    (hok : fetch_dates_str resp ts now h = (FetchRes.ok d, h')) :
    ∃ fields xs, d = Json.obj fields ∧
      d.lookup "delivery_dates" = some (Json.arr xs) ∧ xs ≠ [] := by
  unfold fetch_dates_str at hok
  cases resp with
  | transportError e => simp at hok
  | reply status body_text json? =>
      simp only at hok
      split at hok
      · simp at hok
      · cases json? with
        | none => simp at hok
        | some data =>
            simp only at hok
            split at hok
            · split at hok
              · split at hok
                · simp at hok
                · next hne =>
                    rw [Prod.mk.injEq] at hok
                    obtain ⟨h1, _⟩ := hok
                    injection h1 with hd
                    subst hd
                    refine ⟨_, _, rfl, by assumption, fun hxs => ?_⟩
                    rw [hxs] at hne
                    simp at hne
              · simp at hok
            · simp at hok

theorem fetch_dates_ok_shape (resp : NetResp) (token : Json) (now : Nat)
    (h : Health) (d : Json) (h' : Health)
    (hok : fetch_dates resp token now h = some (FetchRes.ok d, h')) :
    ∃ fields xs, d = Json.obj fields ∧
      d.lookup "delivery_dates" = some (Json.arr xs) ∧ xs ≠ [] := by
  unfold fetch_dates at hok
  cases token with
  | str ts => exact fetch_dates_str_ok_shape _ _ _ _ _ _ (Option.some.inj hok)
  | null => simp at hok
  | bool b => simp at hok
  | num n => simp at hok
  | arr xs => simp at hok
  | obj fs => simp at hok

theorem LRU.val_mem_touch (c : LRU) (k : CacheKey) (e' : CacheKey × CacheVal)
    (h : e' ∈ (c.touch k).entries) : ∃ e ∈ c.entries, e'.2 = e.2 := by
  unfold LRU.touch at h
  cases hf : c.entries.find? (fun e => decide (e.1 = k)) with
  | none =>
      simp only [hf] at h
      exact ⟨e', h, rfl⟩
  | some e0 =>
      simp only [hf, List.mem_cons] at h
      rcases h with h | h
      · exact ⟨e0, List.mem_of_find?_eq_some hf, by rw [h]⟩
      · exact ⟨e', List.mem_of_mem_filter h, rfl⟩

theorem LRU.val_mem_put (c : LRU) (k : CacheKey) (v : CacheVal) (e' : CacheKey × CacheVal)
    (h : e' ∈ (c.put k v).entries) : e'.2 = v ∨ ∃ e ∈ c.entries, e'.2 = e.2 := by
  unfold LRU.put at h
  simp only [List.mem_cons] at h
  rcases h with h | h
  · left; rw [h]
  · right
    exact ⟨e', List.mem_of_mem_filter (List.take_subset _ _ h), rfl⟩

/-- On every failure (and on the unreachable-crash results), the miss tail
leaves the cache at its post-rollover value. -/
theorem Posten_err_cache (env : Env) (pc : String) (st : St) (e : PostenErr) (code : Nat)
    (st' : St) (hrun : Posten env pc st = (some (.err e code), st')) :
    st'.cache = rolledCache env st := by
  simp only [Posten] at hrun
  split at hrun
  · -- cache hit returns a success
    rw [Prod.mk.injEq] at hrun
    simp at hrun
  · simp only [postenMiss] at hrun
    split at hrun
    · simp at hrun
    · -- generated-token success
      split at hrun
      · rw [Prod.mk.injEq] at hrun; simp at hrun
      · simp at hrun
    · -- generated-token failure
      split at hrun
      · -- scrape failed
        injection hrun with h1 h2
        subst h2
        rfl
      · -- scrape succeeded
        split at hrun
        · simp at hrun
        · split at hrun
          · rw [Prod.mk.injEq] at hrun; simp at hrun
          · simp at hrun
        · injection hrun with h1 h2
          subst h2
          rfl

/-- A successful `Posten` call leaves a cache entry for today's key holding
exactly the served `delivery_dates`; the served note is the stored note,
possibly `" (cached)"`-suffixed, and the day marker is today. -/
theorem Posten_ok_stored (env : Env) (pc : String) (st : St) (dd : Json) (note : String)
    (st' : St) (hok : Posten env pc st = (some (.ok dd note), st')) :
    st'.currentDay = env.today ∧
    ∃ base, st'.cache.get? (env.today, zfill pc 4) = some ⟨dd, base⟩ ∧
      (note = base ∨ note = base ++ " (cached)") := by
  simp only [Posten] at hok
  split at hok
  · -- cache hit
    next cached hget =>
      injection hok with h1 h2
      injection h1 with h1
      injection h1 with hdd hnote
      subst h2
      refine ⟨rolledDay_eq env st, cached.note, ?_, Or.inr hnote.symm⟩
      rw [LRU.get?_touch_self, hget, ← hdd]
  · -- miss tail
    simp only [postenMiss] at hok
    split at hok
    · simp at hok
    · -- generated-token success
      next payload h1 hfetch =>
        split at hok
        · next dd0 hdd0 =>
            injection hok with ha hb
            injection ha with ha
            injection ha with hdd hnote
            subst hb hdd hnote
            refine ⟨rolledDay_eq env st, "generated ok", ?_, Or.inl rfl⟩
            exact LRU.get?_put_self _ _ _
        · simp at hok
    · -- generated failure
      split at hok
      · simp at hok
      · split at hok
        · simp at hok
        · -- scraped-token success
          split at hok
          · injection hok with ha hb
            injection ha with ha
            injection ha with hdd hnote
            subst hb hdd hnote
            refine ⟨rolledDay_eq env st, "generated failed, scraped ok", ?_, Or.inl rfl⟩
            exact LRU.get?_put_self _ _ _
          · simp at hok
        · simp at hok


theorem goodNotes_rolledCache (env : Env) (st : St) (hgood : goodNotes st.cache) :
    goodNotes (rolledCache env st) := by
  unfold rolledCache
  split
  · intro e he; simp [LRU.clear] at he
  · exact hgood

/-- One `Posten` call preserves the cached-note invariant. -/
theorem Posten_goodNotes (env : Env) (pc : String) (st : St) (r : Option PostenRes)
    (st' : St) (hrun : Posten env pc st = (r, st')) (hgood : goodNotes st.cache) :
    goodNotes st'.cache := by
  have hgood1 := goodNotes_rolledCache env st hgood
  simp only [Posten] at hrun
  split at hrun
  · -- cache hit: entries are a reordering of the rolled cache's
    injection hrun with h1 h2
    subst h2
    intro e he
    obtain ⟨e0, he0, hv⟩ := LRU.val_mem_touch _ _ _ he
    rw [hv]
    exact hgood1 e0 he0
  · simp only [postenMiss] at hrun
    split at hrun
    · injection hrun with h1 h2; subst h2; exact hgood1
    · split at hrun
      · -- store with note "generated ok"
        injection hrun with h1 h2
        subst h2
        intro e he
        obtain hv | ⟨e0, he0, hv⟩ := LRU.val_mem_put _ _ _ _ he
        · rw [hv]; exact Or.inl rfl
        · rw [hv]; exact hgood1 e0 he0
      · injection hrun with h1 h2; subst h2; exact hgood1
    · split at hrun
      · injection hrun with h1 h2; subst h2; exact hgood1
      · split at hrun
        · injection hrun with h1 h2; subst h2; exact hgood1
        · split at hrun
          · -- store with note "generated failed, scraped ok"
            injection hrun with h1 h2
            subst h2
            intro e he
            obtain hv | ⟨e0, he0, hv⟩ := LRU.val_mem_put _ _ _ _ he
            · rw [hv]; exact Or.inr rfl
            · rw [hv]; exact hgood1 e0 he0
          · injection hrun with h1 h2; subst h2; exact hgood1
        · injection hrun with h1 h2; subst h2; exact hgood1


theorem fetch_dates_str_malformed (text tokenStr : String) (json? : Option Json)
    (now : Nat) (h : Health) (hm : malformedBody json? = true) :
    ∃ e h', fetch_dates_str (.reply 200 text json?) tokenStr now h = (FetchRes.err e 502, h')
      ∧ h'.interpreted_status = some 502 := by
  unfold fetch_dates_str
  simp only [ne_eq, not_true_eq_false, if_false, reduceIte]
  cases json? with
  | none => exact ⟨_, _, rfl, rfl⟩
  | some j =>
      unfold malformedBody at hm
      cases j with
      | null => exact ⟨_, _, rfl, rfl⟩
      | bool b => exact ⟨_, _, rfl, rfl⟩
      | num n => exact ⟨_, _, rfl, rfl⟩
      | str s => exact ⟨_, _, rfl, rfl⟩
      | arr xs => exact ⟨_, _, rfl, rfl⟩
      | obj fields =>
          simp only [Json.isObj, Bool.not_true, Bool.false_or] at hm
          cases hl : (Json.obj fields).lookup "delivery_dates" with
          | none => simp only [hl]; exact ⟨_, _, rfl, rfl⟩
          | some dates =>
              rw [hl] at hm
              cases dates with
              | arr xs =>
                  simp only [hl]
                  rw [if_pos hm]
                  exact ⟨_, _, rfl, rfl⟩
              | null => simp only [hl]; exact ⟨_, _, rfl, rfl⟩
              | bool b => simp only [hl]; exact ⟨_, _, rfl, rfl⟩
              | num n => simp only [hl]; exact ⟨_, _, rfl, rfl⟩
              | str s => simp only [hl]; exact ⟨_, _, rfl, rfl⟩
              | obj fs => simp only [hl]; exact ⟨_, _, rfl, rfl⟩

/-- A cache entry present after a `Posten` call was either already present
after the rollover, or holds a validated non-empty `delivery_dates` list. -/
theorem Posten_entry_validated (env : Env) (pc : String) (st : St)
    (r : Option PostenRes) (st' : St) (v : CacheVal)
    (hrun : Posten env pc st = (r, st'))
    (hv : st'.cache.get? (env.today, zfill pc 4) = some v) :
    (rolledCache env st).get? (env.today, zfill pc 4) = some v ∨
      ∃ xs, v.delivery_dates = Json.arr xs ∧ xs ≠ [] := by
  simp only [Posten] at hrun
  split at hrun
  · -- cache hit: reordering only
    injection hrun with h1 h2
    subst h2
    rw [LRU.get?_touch_self] at hv
    exact Or.inl hv
  · simp only [postenMiss] at hrun
    split at hrun
    · injection hrun with h1 h2; subst h2; exact Or.inl hv
    · -- generated-token success stores a validated payload
      next payload h1 hfetch =>
        split at hrun
        · next dd0 hdd0 =>
            injection hrun with ha hb
            subst hb
            rw [LRU.get?_put_self] at hv
            injection hv with hv
            obtain ⟨fields, xs, hobj, hdd, hne⟩ := fetch_dates_ok_shape _ _ _ _ _ _ hfetch
            rw [hdd0] at hdd
            injection hdd with hdd
            right
            exact ⟨xs, by rw [← hv, ← hdd], hne⟩
        · injection hrun with ha hb; subst hb; exact Or.inl hv
    · split at hrun
      · injection hrun with ha hb; subst hb; exact Or.inl hv
      · split at hrun
        · injection hrun with ha hb; subst hb; exact Or.inl hv
        · next payload2 h2 hfetch2 =>
            split at hrun
            · next dd0 hdd0 =>
                injection hrun with ha hb
                subst hb
                rw [LRU.get?_put_self] at hv
                injection hv with hv
                obtain ⟨fields, xs, hobj, hdd, hne⟩ := fetch_dates_ok_shape _ _ _ _ _ _ hfetch2
                rw [hdd0] at hdd
                injection hdd with hdd
                right
                exact ⟨xs, by rw [← hv, ← hdd], hne⟩
            · injection hrun with ha hb; subst hb; exact Or.inl hv
        · injection hrun with ha hb; subst hb; exact Or.inl hv

/- --------------------------
   Lemmas about the token generator
   -------------------------- -/

theorem b64char_ne_eq (n : Nat) : b64char n ≠ '=' := by
  unfold b64char
  rw [List.getD_eq_getD_get?]
  cases hg : B64_ALPHABET.toList.get? n with
  | none => decide
  | some c =>
      have hmem : c ∈ B64_ALPHABET.toList := List.get?_mem hg
      intro h
      rw [Option.getD_some] at h
      subst h
      revert hmem
      decide

/-- The base64 character stream is a padding-free core followed by a
trailing run of `'='`. -/
theorem b64encodeAux_shape (bs : List Nat) :
    ∃ core pad, b64encodeAux bs = core ++ List.replicate pad '=' ∧
      ∀ c ∈ core, c ≠ '=' := by
  induction bs using b64encodeAux.induct with
  | case1 => exact ⟨[], 0, rfl, by simp⟩
  | case2 a =>
      refine ⟨[b64char (a / 4), b64char (a % 4 * 16)], 2, rfl, ?_⟩
      intro c hc
      simp only [List.mem_cons, List.not_mem_nil, or_false] at hc
      rcases hc with rfl | rfl
      · exact b64char_ne_eq _
      · exact b64char_ne_eq _
  | case3 a b =>
      refine ⟨[b64char (a / 4), b64char (a % 4 * 16 + b / 16), b64char (b % 16 * 4)], 1, rfl, ?_⟩
      intro c hc
      simp only [List.mem_cons, List.not_mem_nil, or_false] at hc
      rcases hc with rfl | rfl | rfl
      · exact b64char_ne_eq _
      · exact b64char_ne_eq _
      · exact b64char_ne_eq _
  | case4 a b c rest ih =>
      obtain ⟨core, pad, hcore, hne⟩ := ih
      refine ⟨b64char (a / 4) :: b64char (a % 4 * 16 + b / 16) ::
        b64char (b % 16 * 4 + c / 64) :: b64char (c % 64) :: core, pad, ?_, ?_⟩
      · simp [b64encodeAux, hcore]
      · intro x hx
        simp only [List.mem_cons] at hx
        rcases hx with rfl | rfl | rfl | rfl | hx
        · exact b64char_ne_eq _
        · exact b64char_ne_eq _
        · exact b64char_ne_eq _
        · exact b64char_ne_eq _
        · exact hne x hx


theorem filter_ne_eq_replicate (n : Nat) :
    (List.replicate n '=').filter (fun c => !(c == '=')) = [] := by
  induction n with
  | zero => rfl
  | succ n ih => simp [List.replicate_succ, ih]

theorem dropWhile_eq_replicate_append (n : Nat) (l : List Char) :
    (List.replicate n '=' ++ l).dropWhile (fun c => c == '=') =
      l.dropWhile (fun c => c == '=') := by
  induction n with
  | zero => rfl
  | succ n ih => simp [List.replicate_succ, List.dropWhile_cons, ih]

theorem dropWhile_eq_self_of_ne (l : List Char) (h : ∀ c ∈ l, c ≠ '=') :
    l.dropWhile (fun c => c == '=') = l := by
  cases l with
  | nil => rfl
  | cons a l =>
      have ha : (a == '=') = false := by
        simpa using h a (List.mem_cons_self a l)
      simp [List.dropWhile_cons, ha]

/-- C7: The token generator is a deterministic total function of the Unix
timestamp (integer seconds) and the fixed seed constant: it base64-encodes
the base64-decoded seed bytes concatenated with the UTF-8 digits of the
timestamp, then strips the padding characters — the source's
`.replace("=", "")` (remove every `'='`) coincides with the spec's
"strip padding" because `'='` only ever occurs as trailing padding in
base64 output. -/
theorem gen_token_strips_padding (t : Nat) :
    gen_token t =
      stripTrailingPadding (b64encode (b64decode TOKEN_SEED_B64 ++ utf8digits t)) := by
  unfold gen_token stripTrailingPadding b64encode
  obtain ⟨core, pad, hshape, hne⟩ := b64encodeAux_shape (b64decode TOKEN_SEED_B64 ++ utf8digits t)
  have htl : (String.mk (b64encodeAux (b64decode TOKEN_SEED_B64 ++ utf8digits t))).toList
      = core ++ List.replicate pad '=' := by
    rw [hshape]
    rfl
  rw [htl]
  rw [List.filter_append, filter_ne_eq_replicate, List.filter_eq_self.mpr, List.append_nil]
  · rw [List.reverse_append, List.reverse_replicate, dropWhile_eq_replicate_append,
      dropWhile_eq_self_of_ne, List.reverse_reverse]
    intro c hc
    exact hne c (List.mem_reverse.mp hc)
  · intro a ha
    simpa using hne a ha

/-- C3: `_fetch_dates` maps a transport/connection failure to an error with
interpreted status 502, and a non-200 HTTP status to an error whose
interpreted status is the upstream status when it lies in [400, 600) and
502 otherwise, without further processing of the body (the parse outcome
`json?` does not appear in the non-200 result). -/
theorem fetch_dates_status_mapping :
    (∀ (m tokenStr : String) (now : Nat) (h : Health),
       fetch_dates (.transportError m) (.str tokenStr) now h =
         some (FetchRes.err ⟨"fetch_dates", none, .null, m⟩ 502,
           record_health h now none
             (if tokenStr.length < 64 then "generated token" else "scraped token")
             none (some 502) (some ("transport: " ++ m)))) ∧
    (∀ (status : Nat) (text tokenStr : String) (json? : Option Json) (now : Nat) (h : Health),
       status ≠ 200 →
       fetch_dates (.reply status text json?) (.str tokenStr) now h =
         some (FetchRes.err ⟨"fetch_dates", some status, .text text, "upstream non-200"⟩
             (if 400 ≤ status ∧ status < 600 then status else 502),
           record_health h now (some status)
             (if tokenStr.length < 64 then "generated token" else "scraped token")
             (some text) (some (if 400 ≤ status ∧ status < 600 then status else 502))
             (some "upstream non-200"))) := by
  constructor
  · intro m tokenStr now h
    rfl
  · intro status text tokenStr json? now h hst
    dsimp only [fetch_dates, fetch_dates_str]
    rw [if_pos hst]
    rfl

/-- Witness for C3 at concrete inputs. -/
theorem fetch_dates_status_mapping_witness :
    fetch_dates (.transportError "refused") (.str "tok") 5 Health.init =
      some (FetchRes.err ⟨"fetch_dates", none, .null, "refused"⟩ 502,
        record_health Health.init 5 none "generated token" none (some 502)
          (some "transport: refused")) ∧
    fetch_dates (.reply 301 "moved" none) (.str "tok") 5 Health.init =
      some (FetchRes.err ⟨"fetch_dates", some 301, .text "moved", "upstream non-200"⟩ 502,
        record_health Health.init 5 (some 301) "generated token" (some "moved") (some 502)
          (some "upstream non-200")) ∧
    fetch_dates (.reply 404 "nf" none) (.str "tok") 5 Health.init =
      some (FetchRes.err ⟨"fetch_dates", some 404, .text "nf", "upstream non-200"⟩ 404,
        record_health Health.init 5 (some 404) "generated token" (some "nf") (some 404)
          (some "upstream non-200")) := by
  refine ⟨fetch_dates_status_mapping.1 "refused" "tok" 5 Health.init, ?_, ?_⟩
  · have h := fetch_dates_status_mapping.2 301 "moved" "tok" none 5 Health.init (by decide)
    simpa using h
  · have h := fetch_dates_status_mapping.2 404 "nf" "tok" none 5 Health.init (by decide)
    simpa using h

/- --------------------------
   Branch-characterization lemmas for `Posten`
   -------------------------- -/

theorem Posten_hit_run (env : Env) (pc : String) (st : St) (v : CacheVal)
    (hhit : (rolledCache env st).get? (env.today, zfill pc 4) = some v) :
    Posten env pc st =
      (some (.ok v.delivery_dates (v.note ++ " (cached)")),
       ⟨(rolledCache env st).touch (env.today, zfill pc 4), env.today,
        record_health st.health env.now (some 200) (v.note ++ " (cached)") none (some 200) none⟩) := by
  simp only [Posten, hhit]
  rw [rolledDay_eq]

theorem Posten_gen_ok_run (env : Env) (pc : String) (st : St)
    (payload : Json) (h1 : Health) (dd : Json)
    (hmiss : (rolledCache env st).get? (env.today, zfill pc 4) = none)
    (hfetch : fetch_dates (env.fetch (Json.str (gen_token env.time)) (zfill pc 4))
        (Json.str (gen_token env.time)) env.now st.health = some (FetchRes.ok payload, h1))
    (hdd : payload.lookup "delivery_dates" = some dd) :
    Posten env pc st =
      (some (.ok dd "generated ok"),
       ⟨(rolledCache env st).put (env.today, zfill pc 4) ⟨dd, "generated ok"⟩, env.today,
        { h1 with note := some "generated ok" }⟩) := by
  simp only [Posten, hmiss, postenMiss, hfetch, hdd]
  rw [rolledDay_eq]

theorem Posten_scrape_fail_run (env : Env) (pc : String) (st : St)
    (e1 : FetchErr) (c1 : Nat) (h1 : Health) (te : ScrapeErr)
    (hmiss : (rolledCache env st).get? (env.today, zfill pc 4) = none)
    (hfetch : fetch_dates (env.fetch (Json.str (gen_token env.time)) (zfill pc 4))
        (Json.str (gen_token env.time)) env.now st.health = some (FetchRes.err e1 c1, h1))
    (hscrape : scrape_token env.scrape = .err te) :
    Posten env pc st =
      (some (.err (.scrape "token_scrape" te) 502),
       ⟨rolledCache env st, env.today,
        { h1 with note := some "generated failed, scraped failed" }⟩) := by
  simp only [Posten, hmiss, postenMiss, hfetch, hscrape]
  rw [rolledDay_eq]

theorem Posten_scraped_fetch_fail_run (env : Env) (pc : String) (st : St)
    (e1 : FetchErr) (c1 : Nat) (h1 : Health) (tok : Json)
    (e2 : FetchErr) (c2 : Nat) (h2 : Health)
    (hmiss : (rolledCache env st).get? (env.today, zfill pc 4) = none)
    (hfetch : fetch_dates (env.fetch (Json.str (gen_token env.time)) (zfill pc 4))
        (Json.str (gen_token env.time)) env.now st.health = some (FetchRes.err e1 c1, h1))
    (hscrape : scrape_token env.scrape = .ok tok)
    (hfetch2 : fetch_dates (env.fetch tok (zfill pc 4)) tok env.now h1 =
        some (FetchRes.err e2 c2, h2)) :
    Posten env pc st =
      (some (.err (.fetch "fetch_with_scraped_token" e2) (if c2 = 0 then 502 else c2)),
       ⟨rolledCache env st, env.today,
        { h2 with note := some "generated failed, scraped failed" }⟩) := by
  simp only [Posten, hmiss, postenMiss, hfetch, hscrape, hfetch2]
  rw [rolledDay_eq]

/-- The non-200 arm of `_fetch_dates` in closed form. -/
theorem fetch_dates_str_non200 (status : Nat) (text tokenStr : String)
    (json? : Option Json) (now : Nat) (h : Health) (hst : status ≠ 200) :
    fetch_dates_str (.reply status text json?) tokenStr now h =
      (FetchRes.err ⟨"fetch_dates", some status, .text text, "upstream non-200"⟩
         (if 400 ≤ status ∧ status < 600 then status else 502),
       record_health h now (some status)
         (if tokenStr.length < 64 then "generated token" else "scraped token")
         (some text) (some (if 400 ≤ status ∧ status < 600 then status else 502))
         (some "upstream non-200")) := by
  dsimp only [fetch_dates_str]
  rw [if_pos hst]
  rfl


/- --------------------------
   Claim theorems
   -------------------------- -/

/-- C1: on a cache miss the orchestrator first attempts a fetch with a
freshly generated token and, on success, stores and returns the result
with note "generated ok"; on generated-token failure it scrapes: a failed
scrape yields a failure tagged source "token_scrape" with interpreted
status 502, and a successful scrape followed by a failed second fetch
yields a failure tagged source "fetch_with_scraped_token" carrying that
attempt's interpreted status (502 if unset). -/
theorem posten_orchestrator_fallback (env : Env) (pc : String) (st : St)
    (hmiss : (rolledCache env st).get? (env.today, zfill pc 4) = none) :
    (∀ payload h1 dd,
       fetch_dates (env.fetch (Json.str (gen_token env.time)) (zfill pc 4))
           (Json.str (gen_token env.time)) env.now st.health = some (FetchRes.ok payload, h1) →
       payload.lookup "delivery_dates" = some dd →
       Posten env pc st =
         (some (.ok dd "generated ok"),
          ⟨(rolledCache env st).put (env.today, zfill pc 4) ⟨dd, "generated ok"⟩, env.today,
           { h1 with note := some "generated ok" }⟩)) ∧
    (∀ e1 c1 h1 te,
       fetch_dates (env.fetch (Json.str (gen_token env.time)) (zfill pc 4))
           (Json.str (gen_token env.time)) env.now st.health = some (FetchRes.err e1 c1, h1) →
       scrape_token env.scrape = .err te →
       Posten env pc st =
         (some (.err (.scrape "token_scrape" te) 502),
          ⟨rolledCache env st, env.today,
           { h1 with note := some "generated failed, scraped failed" }⟩)) ∧
    (∀ e1 c1 h1 tok e2 c2 h2,
       fetch_dates (env.fetch (Json.str (gen_token env.time)) (zfill pc 4))
           (Json.str (gen_token env.time)) env.now st.health = some (FetchRes.err e1 c1, h1) →
       scrape_token env.scrape = .ok tok →
       fetch_dates (env.fetch tok (zfill pc 4)) tok env.now h1 = some (FetchRes.err e2 c2, h2) →
       Posten env pc st =
         (some (.err (.fetch "fetch_with_scraped_token" e2) (if c2 = 0 then 502 else c2)),
          ⟨rolledCache env st, env.today,
           { h2 with note := some "generated failed, scraped failed" }⟩)) := by
  refine ⟨?_, ?_, ?_⟩
  · intro payload h1 dd hfetch hdd
    exact Posten_gen_ok_run env pc st payload h1 dd hmiss hfetch hdd
  · intro e1 c1 h1 te hfetch hscrape
    exact Posten_scrape_fail_run env pc st e1 c1 h1 te hmiss hfetch hscrape
  · intro e1 c1 h1 tok e2 c2 h2 hfetch hscrape hfetch2
    exact Posten_scraped_fetch_fail_run env pc st e1 c1 h1 tok e2 c2 h2 hmiss hfetch hscrape hfetch2

/-- Witness for C1: all three branches exercised at concrete inputs. -/
theorem posten_orchestrator_fallback_witness :
    (Posten envOkW "1234" stEmptyW).1 = some (.ok sampleDates "generated ok") ∧
    (Posten env404W "1234" stEmptyW).1 =
      some (.err (.scrape "token_scrape" ⟨"scrape_token", "boom"⟩) 502) ∧
    (Posten envScrW "1234" stEmptyW).1 =
      some (.err (.fetch "fetch_with_scraped_token"
        ⟨"fetch_dates", some 500, .text "err", "upstream non-200"⟩) 500) := by
  refine ⟨?_, ?_, ?_⟩
  · rw [(posten_orchestrator_fallback envOkW "1234" stEmptyW rfl).1 samplePayload _ sampleDates rfl rfl]
  · rw [(posten_orchestrator_fallback env404W "1234" stEmptyW rfl).2.1 _ 404 _ ⟨"scrape_token", "boom"⟩ rfl rfl]
  · rw [(posten_orchestrator_fallback envScrW "1234" stEmptyW rfl).2.2 _ 404 _ _ _ 500 _ rfl rfl rfl]
    rfl

/-- C2: a 200 reply whose body is unparseable, not an object, lacks
`delivery_dates`, has a non-list `delivery_dates`, or an empty one, makes
`_fetch_dates` fail with interpreted status 502; and no such result is ever
stored: an entry present after any `Posten` call either predates the call
(post-rollover) or holds a validated non-empty list. -/
theorem fetch_dates_malformed_never_cached :
    (∀ (text tokenStr : String) (json? : Option Json) (now : Nat) (h : Health),
       malformedBody json? = true →
       ∃ e h', fetch_dates (.reply 200 text json?) (.str tokenStr) now h =
           some (FetchRes.err e 502, h') ∧ h'.interpreted_status = some 502) ∧
    (∀ (env : Env) (pc : String) (st : St) (r : Option PostenRes) (st' : St) (v : CacheVal),
       Posten env pc st = (r, st') →
       st'.cache.get? (env.today, zfill pc 4) = some v →
       (rolledCache env st).get? (env.today, zfill pc 4) = some v ∨
         ∃ xs, v.delivery_dates = Json.arr xs ∧ xs ≠ []) := by
  constructor
  · intro text tokenStr json? now h hm
    obtain ⟨e, h', heq, hint⟩ := fetch_dates_str_malformed text tokenStr json? now h hm
    refine ⟨e, h', ?_, hint⟩
    dsimp only [fetch_dates]
    rw [heq]
  · intro env pc st r st' v hrun hv
    exact Posten_entry_validated env pc st r st' v hrun hv

/-- Witness for C2: empty `delivery_dates` body, and the concrete entry
stored by a successful call is a validated non-empty list. -/
theorem fetch_dates_malformed_never_cached_witness :
    (∃ e h', fetch_dates (.reply 200 "{}" (some (Json.obj [("delivery_dates", Json.arr [])])))
        (.str "tok") 5 Health.init = some (FetchRes.err e 502, h') ∧
        h'.interpreted_status = some 502) ∧
    ((rolledCache envOkW stEmptyW).get? ("2026-10-12", "1234") =
        some ⟨sampleDates, "generated ok"⟩ ∨
      ∃ xs, (CacheVal.mk sampleDates "generated ok").delivery_dates = Json.arr xs ∧ xs ≠ []) := by
  constructor
  · exact fetch_dates_malformed_never_cached.1 "{}" "tok" _ 5 Health.init rfl
  · exact fetch_dates_malformed_never_cached.2 envOkW "1234" stEmptyW _ _ _
      Prod.mk.eta.symm (by rfl)

/-- C6: every failing path of the orchestrator leaves the cache unchanged
(only the day rollover may have cleared it); the failure carries source
"token_scrape" or "fetch_with_scraped_token". -/
theorem posten_failure_no_cache_mutation (env : Env) (pc : String) (st : St)
    (e : PostenErr) (code : Nat) (st' : St)
    (hrun : Posten env pc st = (some (.err e code), st')) :
    st'.cache = rolledCache env st ∧
      ((∃ se, e = .scrape "token_scrape" se) ∨
       (∃ fe, e = .fetch "fetch_with_scraped_token" fe)) := by
  refine ⟨Posten_err_cache env pc st e code st' hrun, ?_⟩
  simp only [Posten] at hrun
  split at hrun
  · rw [Prod.mk.injEq] at hrun
    simp at hrun
  · simp only [postenMiss] at hrun
    split at hrun
    · simp at hrun
    · split at hrun
      · rw [Prod.mk.injEq] at hrun; simp at hrun
      · simp at hrun
    · split at hrun
      · injection hrun with h1 h2
        injection h1 with h1
        injection h1 with he hc
        exact Or.inl ⟨_, he.symm⟩
      · split at hrun
        · simp at hrun
        · split at hrun
          · rw [Prod.mk.injEq] at hrun; simp at hrun
          · simp at hrun
        · injection hrun with h1 h2
          injection h1 with h1
          injection h1 with he hc
          exact Or.inr ⟨_, he.symm⟩

/-- Witness for C6 at a concrete double-failure run. -/
theorem posten_failure_no_cache_mutation_witness :
    (Posten env404W "1234" stEmptyW).2.cache = rolledCache env404W stEmptyW ∧
      ((∃ se, PostenErr.scrape "token_scrape" ⟨"scrape_token", "boom"⟩ =
          PostenErr.scrape "token_scrape" se) ∨
       (∃ fe, PostenErr.scrape "token_scrape" ⟨"scrape_token", "boom"⟩ =
          PostenErr.fetch "fetch_with_scraped_token" fe)) :=
  posten_failure_no_cache_mutation env404W "1234" stEmptyW _ 502 _ rfl

theorem Posten_currentDay (env : Env) (pc : String) (st : St) :
    (Posten env pc st).2.currentDay = env.today := by
  simp only [Posten]
  split
  · exact rolledDay_eq env st
  · simp only [postenMiss]
    split
    · exact rolledDay_eq env st
    · split
      · exact rolledDay_eq env st
      · exact rolledDay_eq env st
    · split
      · exact rolledDay_eq env st
      · split
        · exact rolledDay_eq env st
        · split
          · exact rolledDay_eq env st
          · exact rolledDay_eq env st
        · exact rolledDay_eq env st

/-- C4: when the calendar day differs from the remembered marker the whole
cache is cleared and the marker updated before the key space is consulted:
the call is indistinguishable from one on a cleared cache, and the final
marker is the current day, so no entry stored on a previous day is ever
served later. -/
theorem posten_day_rollover (env : Env) (pc : String) (st : St)
    (hroll : env.today ≠ st.currentDay) :
    Posten env pc st = Posten env pc ⟨st.cache.clear, st.currentDay, st.health⟩ ∧
      (Posten env pc st).2.currentDay = env.today := by
  constructor
  · have h1 : rolledCache env st = rolledCache env ⟨st.cache.clear, st.currentDay, st.health⟩ := by
      unfold rolledCache
      simp [hroll, LRU.clear]
    have h2 : rolledDay env st = rolledDay env ⟨st.cache.clear, st.currentDay, st.health⟩ := by
      unfold rolledDay
      simp [hroll]
    simp only [Posten]
    rw [h1, h2]
  · exact Posten_currentDay env pc st

/-- Witness for C4 at a concrete day change. -/
theorem posten_day_rollover_witness :
    (Posten env404W "1234" stOldW =
        Posten env404W "1234" ⟨stOldW.cache.clear, stOldW.currentDay, stOldW.health⟩ ∧
      (Posten env404W "1234" stOldW).2.currentDay = "2026-10-12") :=
  posten_day_rollover env404W "1234" stOldW (by decide)

/-- C5: after a successful lookup, a second lookup for the same (4-digit)
code on the same calendar day is served from the cache without consulting
the network oracle: it returns the same `delivery_dates`, the stored note
suffixed with " (cached)", and updates health to a synthetic 200
cache-hit. -/
theorem posten_same_day_second_lookup_cached (env env2 : Env) (pc : String)
    (st st1 : St) (dd : Json) (note : String)
    (_hvalid : pc.length = 4)
    (h1 : Posten env pc st = (some (.ok dd note), st1))
    (hday : env2.today = env.today) :
    ∃ base, (note = base ∨ note = base ++ " (cached)") ∧
      Posten env2 pc st1 =
        (some (.ok dd (base ++ " (cached)")),
         ⟨st1.cache.touch (env.today, zfill pc 4), st1.currentDay,
          record_health st1.health env2.now (some 200) (base ++ " (cached)") none
            (some 200) none⟩) := by
  obtain ⟨hday1, base, hstored, hnote⟩ := Posten_ok_stored env pc st dd note st1 h1
  have hnoroll : rolledCache env2 st1 = st1.cache := by
    unfold rolledCache
    rw [if_neg]
    rw [hday, ← hday1]
    exact not_ne_iff.mpr rfl
  have hd : rolledDay env2 st1 = st1.currentDay := by
    unfold rolledDay
    rw [if_neg]
    rw [hday, ← hday1]
    exact not_ne_iff.mpr rfl
  have hhit : (rolledCache env2 st1).get? (env2.today, zfill pc 4) = some ⟨dd, base⟩ := by
    rw [hnoroll, hday]
    exact hstored
  refine ⟨base, hnote, ?_⟩
  have hrun := Posten_hit_run env2 pc st1 ⟨dd, base⟩ hhit
  rw [hrun, hnoroll, hday, hday1]

/-- Witness for C5: two consecutive lookups against a stable upstream. -/
theorem posten_same_day_second_lookup_cached_witness :
    ∃ base, (("generated ok" : String) = base ∨ "generated ok" = base ++ " (cached)") ∧
      Posten envOkW "1234" (Posten envOkW "1234" stEmptyW).2 =
        (some (.ok sampleDates (base ++ " (cached)")),
         ⟨(Posten envOkW "1234" stEmptyW).2.cache.touch ("2026-10-12", "1234"),
          (Posten envOkW "1234" stEmptyW).2.currentDay,
          record_health (Posten envOkW "1234" stEmptyW).2.health 7 (some 200)
            (base ++ " (cached)") none (some 200) none⟩) :=
  posten_same_day_second_lookup_cached envOkW envOkW "1234" stEmptyW
    (Posten envOkW "1234" stEmptyW).2 sampleDates "generated ok" (by decide) rfl rfl


/-- C9: a cache hit serves a copy, not an alias: the " (cached)" annotation
appears only on the served value while the stored entry keeps its base
note; and since the two store sites only ever write the two base notes,
a stored note never carries the " (cached)" suffix after any number of
hits. -/
theorem posten_cache_hit_serves_copy (env : Env) (pc : String) (st : St) (v : CacheVal)
    (hhit : (rolledCache env st).get? (env.today, zfill pc 4) = some v) :
    (Posten env pc st).1 = some (.ok v.delivery_dates (v.note ++ " (cached)")) ∧
    (Posten env pc st).2.cache.get? (env.today, zfill pc 4) = some v ∧
    (∀ (r : Option PostenRes) (st' : St), Posten env pc st = (r, st') →
       goodNotes st.cache → goodNotes st'.cache) ∧
    (∀ s, s = "generated ok" ∨ s = "generated failed, scraped ok" →
       endsWithCached s = false) := by
  have hrun := Posten_hit_run env pc st v hhit
  refine ⟨by rw [hrun], ?_, ?_, ?_⟩
  · rw [hrun]
    dsimp only
    rw [LRU.get?_touch_self]
    exact hhit
  · intro r st' h hg
    exact Posten_goodNotes env pc st r st' h hg
  · intro s hs
    rcases hs with rfl | rfl
    · decide
    · decide

/-- Witness for C9 at a concrete pre-populated cache. -/
theorem posten_cache_hit_serves_copy_witness :
    (Posten env404W "1234" stHitW).1 =
      some (.ok sampleDates ("generated ok" ++ " (cached)")) ∧
    (Posten env404W "1234" stHitW).2.cache.get? ("2026-10-12", "1234") =
      some ⟨sampleDates, "generated ok"⟩ ∧
    (∀ (r : Option PostenRes) (st' : St), Posten env404W "1234" stHitW = (r, st') →
       goodNotes stHitW.cache → goodNotes st'.cache) ∧
    (∀ s, s = "generated ok" ∨ s = "generated failed, scraped ok" →
       endsWithCached s = false) :=
  posten_cache_hit_serves_copy env404W "1234" stHitW ⟨sampleDates, "generated ok"⟩ rfl

/-- C10: when the token-scrape stage fails, the served error payload takes
`status` and `interpreted_status` from the process-wide health snapshot —
last written by the failed generated-token fetch — rather than from the
orchestrator's returned 502, so e.g. after an upstream 404 the served
interpreted_status is 404 while the orchestrator returned 502. -/
theorem error_payload_uses_health_snapshot (env : Env) (pc : String) (st : St)
    (s : Nat) (text : String) (json? : Option Json) (te : ScrapeErr)
    (hmiss : (rolledCache env st).get? (env.today, zfill pc 4) = none)
    (hfetch : env.fetch (Json.str (gen_token env.time)) (zfill pc 4) = .reply s text json?)
    (hs200 : s ≠ 200) (hrange : 400 ≤ s ∧ s < 600) (hs502 : s ≠ 502)
    (hscrape : scrape_token env.scrape = .err te) :
    (∀ (e : PostenErr) (h : Health),
       (compose_payload_from_error e h).status = h.status ∧
       (compose_payload_from_error e h).interpreted_status = h.interpreted_status) ∧
    (Posten env pc st).1 = some (.err (.scrape "token_scrape" te) 502) ∧
    (compose_payload_from_error (.scrape "token_scrape" te)
        (Posten env pc st).2.health).interpreted_status = some s ∧
    some s ≠ some 502 := by
  have hfd : fetch_dates (env.fetch (Json.str (gen_token env.time)) (zfill pc 4))
      (Json.str (gen_token env.time)) env.now st.health =
      some (FetchRes.err ⟨"fetch_dates", some s, .text text, "upstream non-200"⟩
          (if 400 ≤ s ∧ s < 600 then s else 502),
        record_health st.health env.now (some s)
          (if (gen_token env.time).length < 64 then "generated token" else "scraped token")
          (some text) (some (if 400 ≤ s ∧ s < 600 then s else 502)) (some "upstream non-200")) := by
    rw [hfetch]
    dsimp only [fetch_dates]
    rw [fetch_dates_str_non200 s text _ json? env.now st.health hs200]
  have hrun := Posten_scrape_fail_run env pc st _ _ _ te hmiss hfd hscrape
  refine ⟨fun e h => ⟨rfl, rfl⟩, by rw [hrun], ?_, by simpa using hs502⟩
  rw [hrun]
  show some (if 400 ≤ s ∧ s < 600 then s else 502) = some s
  rw [if_pos hrange]

/-- Witness for C10: upstream 404 on the generated token, scrape failure,
served interpreted_status 404 against a returned 502. -/
theorem error_payload_uses_health_snapshot_witness :
    (∀ (e : PostenErr) (h : Health),
       (compose_payload_from_error e h).status = h.status ∧
       (compose_payload_from_error e h).interpreted_status = h.interpreted_status) ∧
    (Posten env404W "1234" stEmptyW).1 =
      some (.err (.scrape "token_scrape" ⟨"scrape_token", "boom"⟩) 502) ∧
    (compose_payload_from_error (.scrape "token_scrape" ⟨"scrape_token", "boom"⟩)
        (Posten env404W "1234" stEmptyW).2.health).interpreted_status = some 404 ∧
    some 404 ≠ some 502 :=
  error_payload_uses_health_snapshot env404W "1234" stEmptyW 404 "nf" none
    ⟨"scrape_token", "boom"⟩ rfl rfl (by decide) (by decide) (by decide) rfl


/-- C8 counterexample: the scraper does not match the attribute's numeric
suffix with a pattern. A page whose delivery script carries the renumbered
suffix `_12` and a valid embedded token is rejected with "delivery script
not found" instead of yielding the token. -/
theorem scrape_token_no_pattern_counterexample :
    scrape_token pageRenumbered =
      .err ⟨"scrape_token", "delivery script not found"⟩ ∧
    scrape_token pageRenumbered ≠ .ok (Json.str "tok123") := by
  constructor
  · rfl
  · intro h
    rw [show scrape_token pageRenumbered =
      .err ⟨"scrape_token", "delivery script not found"⟩ from rfl] at h
    exact ScrapeOut.noConfusion h

/-- C8 amended: on a successful page fetch the scraper selects the first
script whose `data-react4xp-ref` attribute exactly equals the fixed value
`parts_mailbox-delivery__main_1_leftRegion_11` (the numeric suffix is
hard-coded, not pattern-matched), parses that script's first text node as
JSON and extracts `props.apiKey`, failing with a `scrape_token`-stage
error when no script matches exactly or the JSON lacks the expected field;
a page-fetch failure is reported with the transport message. -/
theorem scrape_token_exact_attribute_match (scripts : List Script) (m : String) :
    (scrape_token (.fetchError m) = .err ⟨"scrape_token", m⟩) ∧
    (scripts.find? (fun sc => decide (sc.react4xpRef = some SCRAPE_ATTR)) = none →
       scrape_token (.page scripts) =
         .err ⟨"scrape_token", "delivery script not found"⟩) ∧
    (∀ sc j tok,
       scripts.find? (fun sc => decide (sc.react4xpRef = some SCRAPE_ATTR)) = some sc →
       sc.contents.head? = some (some j) →
       (j.lookup "props").bind (fun props => props.lookup "apiKey") = some tok →
       scrape_token (.page scripts) = .ok tok) ∧
    (∀ sc j,
       scripts.find? (fun sc => decide (sc.react4xpRef = some SCRAPE_ATTR)) = some sc →
       sc.contents.head? = some (some j) →
       (j.lookup "props").bind (fun props => props.lookup "apiKey") = none →
       ∃ msg, scrape_token (.page scripts) = .err ⟨"scrape_token", msg⟩) := by
  refine ⟨rfl, ?_, ?_, ?_⟩
  · intro hfind
    simp only [scrape_token, hfind]
  · intro sc j tok hfind hhead hkey
    simp only [scrape_token, hfind, hhead]
    cases hp : j.lookup "props" with
    | none => rw [hp] at hkey; simp at hkey
    | some props =>
        rw [hp] at hkey
        simp only [Option.some_bind] at hkey
        simp only [hkey]
  · intro sc j hfind hhead hkey
    simp only [scrape_token, hfind, hhead]
    cases hp : j.lookup "props" with
    | none => exact ⟨_, rfl⟩
    | some props =>
        rw [hp] at hkey
        simp only [Option.some_bind] at hkey
        exact ⟨"parse failed: KeyError", by simp only [hkey]⟩

/-- Witness for the amended C8 at concrete pages. -/
theorem scrape_token_exact_attribute_match_witness :
    scrape_token (.fetchError "boom") = .err ⟨"scrape_token", "boom"⟩ ∧
    scrape_token (.page []) = .err ⟨"scrape_token", "delivery script not found"⟩ ∧
    scrape_token (.page [⟨some SCRAPE_ATTR,
        [some (Json.obj [("props", Json.obj [("apiKey", Json.str "tok123")])])]⟩]) =
      .ok (Json.str "tok123") := by
  refine ⟨(scrape_token_exact_attribute_match [] "boom").1,
          (scrape_token_exact_attribute_match [] "x").2.1 rfl, ?_⟩
  exact (scrape_token_exact_attribute_match
      [⟨some SCRAPE_ATTR, [some (Json.obj [("props", Json.obj [("apiKey", Json.str "tok123")])])]⟩]
      "x").2.2.1 _ _ _ rfl rfl rfl

/-- Witness for C7 at a concrete timestamp. -/
theorem gen_token_strips_padding_witness :
    gen_token 1760227200 =
      stripTrailingPadding (b64encode (b64decode TOKEN_SEED_B64 ++ utf8digits 1760227200)) :=
  gen_token_strips_padding 1760227200
